import Mathlib

/-!
Shallow embedding of the session-authentication and usage-quota core of the
mirrornote app, translated from `frontend/app/context/AuthContext.tsx`.
The client is a single cooperative JS event loop: every handler runs
atomically between `await` points, so each handler is embedded as a pure
state transformer parameterised by the outcome of the network call it awaits.
The in-flight window of an exchange is exactly the set of states in which
`processingLock = true` (the lock is set synchronously before the first
`await` and cleared in the `finally`).
-/

namespace MirrorNote

/-- User profile fields returned by the auth collaborator
(the `User` interface of AuthContext.tsx). -/
structure UserData where
  id : String
  email : String
  name : String
  picture : Option String
deriving DecidableEq, Repr

/-- Body of the `POST /api/auth/session` response (`response.data`):
an optional `session_token` plus the user profile fields
(`const \x7b session_token, ...userData \x7d = response.data`). -/
structure SessionResponse where
  session_token : Option String
  user : UserData
deriving DecidableEq, Repr

/-- An axios rejection: either a response was received with some HTTP status
(`error.response`), or no response arrived at all (`error.request`, a
network failure). -/
inductive AxiosError where
  | httpStatus (code : Nat)
  | network
deriving DecidableEq, Repr

/-- Outcome of an awaited request: a successful payload or a rejection. -/
inductive RequestOutcome (α : Type) where
  | ok (a : α)
  | err (e : AxiosError)
deriving DecidableEq, Repr

/-- Client-side mutable state of AuthContext.tsx:
`storedToken` is the AsyncStorage slot under `SESSION_TOKEN_KEY`,
`user` is the React `user` state, `processingRef` and `processingLock`
are the two refs guarding the exchange; `exchangeCalls` records the
`POST /api/auth/session` calls issued (for counting, newest last). -/
structure ClientState where
  storedToken : Option String
  user : Option UserData
  processingRef : Option String
  processingLock : Bool
  exchangeCalls : List String
deriving DecidableEq, Repr

/-! ### extractSessionId

The source first runs the JS regex `#.*session_id=([^&]+)` over the URL
(`url.match`), and only when it does not match parses the query parameters
(`Linking.parse(url).queryParams`). The regex is embedded with JS
leftmost-match semantics: the match starts at the earliest `#` from which
the whole pattern can succeed, `.*` (any char except line terminators) is
greedy, and the capture `[^&]+` is the maximal nonempty run of
non-ampersand characters. -/

/-- Characters matched by `.` in a JS regex (everything except the four
line terminators). -/
def isDotChar (c : Char) : Bool :=
  !(c == '\n' || c == '\r' || c.toNat == 0x2028 || c.toNat == 0x2029)

/-- Maximal run of characters up to (excluding) the first `&`:
the greedy capture `[^&]+` once nonemptiness is known. -/
def takeNonAmp : List Char → List Char
  | [] => []
  | c :: cs => if c == '&' then [] else c :: takeNonAmp cs

/-- Does `cs` start with the pattern `ps`? -/
def startsWithChars : List Char → List Char → Bool
  | [], _ => true
  | _ :: _, [] => false
  | p :: ps, c :: cs => p == c && startsWithChars ps cs

/-- Match `session_id=([^&]+)` at the head of `cs`: the literal key, then a
nonempty greedy capture of non-`&` characters. -/
def matchKeyAt (cs : List Char) : Option String :=
  if startsWithChars "session_id=".toList cs then
    match cs.drop 11 with
    | [] => none
    | c :: rest => if c == '&' then none else some (String.mk (c :: takeNonAmp rest))
  else none

/-- Length of the maximal prefix of `cs` that `.*` may consume. -/
def dotPrefixLen : List Char → Nat
  | [] => 0
  | c :: cs => if isDotChar c then dotPrefixLen cs + 1 else 0

/-- Greedy backtracking for `.*session_id=([^&]+)`: try the largest number
of characters consumed by `.*` first, down to zero. -/
def tryDotStar (cs : List Char) : Nat → Option String
  | 0 => matchKeyAt cs
  | k + 1 =>
    match matchKeyAt (cs.drop (k + 1)) with
    | some r => some r
    | none => tryDotStar cs k

/-- Leftmost scan for `#.*session_id=([^&]+)` over the whole URL:
at each `#`, attempt the greedy tail; on failure keep scanning. -/
def scanHash : List Char → Option String
  | [] => none
  | c :: cs =>
    if c == '#' then
      match tryDotStar cs (dotPrefixLen cs) with
      | some r => some r
      | none => scanHash cs
    else scanHash cs

/-- The query string of a URL: the part after the first `?` that precedes
the fragment (everything after the first `#` is fragment, per URL syntax
as used by `Linking.parse`). -/
def queryOf (cs : List Char) : List Char :=
  let beforeHash := cs.takeWhile (fun c => c ≠ '#')
  (beforeHash.dropWhile (fun c => c ≠ '?')).drop 1

/-- Split a query string on `&` into its `key=value` pieces. -/
def splitOnAmp : List Char → List (List Char)
  | [] => [[]]
  | c :: cs =>
    if c == '&' then [] :: splitOnAmp cs
    else
      match splitOnAmp cs with
      | [] => [[c]]
      | p :: ps => (c :: p) :: ps

/-- Split one `key=value` piece at its first `=` (no `=` gives an empty
value, as the query-string parser behind `Linking.parse` does). -/
def splitKV (piece : List Char) : List Char × List Char :=
  (piece.takeWhile (fun c => c ≠ '='), (piece.dropWhile (fun c => c ≠ '=')).drop 1)

/-- `Linking.parse(url).queryParams.session_id`: the value of the first
`session_id` key of the query string. Percent-decoding is not modelled
(no claim depends on it); duplicate keys are modelled first-wins. -/
def queryLookup (url : String) : Option String :=
  match ((splitOnAmp (queryOf url.toList)).map splitKV).find?
      (fun p => p.1 == "session_id".toList) with
  | some p => some (String.mk p.2)
  | none => none

/-- `extractSessionId` of AuthContext.tsx: the fragment regex first
(`hashMatch`), else the query parameters; the query branch returns the
value only when it is truthy (a nonempty string). -/
def extractSessionId (url : String) : Option String :=
  match scanHash url.toList with
  | some v => some v
  | none =>
    match queryLookup url with
    | some v => if v = "" then none else some v
    | none => none

/-! ### The exchange and its guards -/

/-- `processSessionId` of AuthContext.tsx. Returns early when the lock is
set or when `processingRef` already holds this credential; otherwise sets
the lock and the ref, issues the exchange call, and on the awaited
`outcome` either persists the token (only when `response.data.session_token`
is truthy) and sets the user from the remaining response fields, or — in
`catch` — removes the stored token and sets the user to null. The `finally`
clears both the lock and the ref. -/
def processSessionId (st : ClientState) (sessionId : String)
    (outcome : RequestOutcome SessionResponse) : ClientState :=
  if st.processingLock then st
  else if st.processingRef = some sessionId then st
  else
    let started : ClientState :=
      { st with processingLock := true, processingRef := some sessionId,
                exchangeCalls := st.exchangeCalls ++ [sessionId] }
    let settled : ClientState :=
      match outcome with
      | .ok resp =>
        let tok : Option String :=
          match resp.session_token with
          | some t => if t = "" then started.storedToken else some t
          | none => started.storedToken
        { started with storedToken := tok, user := some resp.user }
      | .err _ =>
        { started with storedToken := none, user := none }
    { settled with processingLock := false, processingRef := none }

/-- `handleDeepLink` of AuthContext.tsx: extract a credential from the
event URL; drop it when the ref already holds it or the lock is set,
otherwise run the exchange. -/
def handleDeepLink (st : ClientState) (url : String)
    (outcome : RequestOutcome SessionResponse) : ClientState :=
  match extractSessionId url with
  | some sessionId =>
    if st.processingRef = some sessionId ∨ st.processingLock then st
    else processSessionId st sessionId outcome
  | none => st

/-- `checkSession` of AuthContext.tsx: with no stored token, set the user
to null and return; otherwise `GET /api/auth/me` and set the user from the
response — the `catch` removes the stored token and sets the user to null
on any rejection. -/
def checkSession (st : ClientState) (outcome : RequestOutcome UserData) : ClientState :=
  match st.storedToken with
  | none => { st with user := none }
  | some _ =>
    match outcome with
    | .ok u => { st with user := some u }
    | .err _ => { st with storedToken := none, user := none }

/-- `initializeAuth` of AuthContext.tsx: read the launch URL; when it
yields a credential run the exchange and return, otherwise fall back to
`checkSession`. -/
def initializeAuth (st : ClientState) (initialUrl : Option String)
    (exchangeOutcome : RequestOutcome SessionResponse)
    (checkOutcome : RequestOutcome UserData) : ClientState :=
  match initialUrl with
  | some url =>
    match extractSessionId url with
    | some sessionId => processSessionId st sessionId exchangeOutcome
    | none => checkSession st checkOutcome
  | none => checkSession st checkOutcome

/-! ### The axios interceptors -/

/-- User-visible or logged effects of the response interceptor. -/
inductive Effect where
  | alertRateLimit
  | logUnauthorized
  | alertNetwork
deriving DecidableEq, Repr

/-- The axios response error interceptor of AuthContext.tsx: on status 429
alert a rate-limit notice, on status 401 only log, on a network failure
alert a connectivity notice; the client state is passed through untouched
and the error is re-rejected to the caller. -/
def responseInterceptor (st : ClientState) (e : AxiosError) :
    ClientState × List Effect :=
  match e with
  | .httpStatus code =>
    if code = 429 then (st, [.alertRateLimit])
    else if code = 401 then (st, [.logUnauthorized])
    else (st, [])
  | .network => (st, [.alertNetwork])

/-- An outbound request configuration; only the `Authorization` header
matters to the interceptor. -/
structure RequestConfig where
  authorization : Option String
deriving DecidableEq, Repr

/-- The axios request interceptor of AuthContext.tsx: read the stored
token; when present set `config.headers.Authorization` to `Bearer <token>`,
otherwise leave the config untouched. -/
def requestInterceptor (storedToken : Option String) (config : RequestConfig) :
    RequestConfig :=
  match storedToken with
  | some token => { config with authorization := some ("Bearer " ++ token) }
  | none => config

/-! ### PlanPolicy and UsageLedger

The backend usage service (`backend/usage.py` per the repository's
test_result.md) is not among the available source files; only its plan
figures and contract are documented. These definitions are therefore
modelled from the spec rather than translated from code. -/

/-- Plan tiers: the capped-total tier (Free, 5 total assessments) and the
recurring tier (Standard, 30 per month), per the repository documentation. -/
inductive PlanType where
  | free
  | standard
deriving DecidableEq, Repr

/-- Kind of quota-accounting window of a plan. -/
inductive PeriodKind where
  | lifetime
  | monthly
deriving DecidableEq, Repr

/-- A PlanPolicy entry: the unit limit and the period kind of a tier. -/
structure PlanPolicyEntry where
  limit : Nat
  periodKind : PeriodKind
deriving DecidableEq, Repr

/-- Modelled from the spec: PlanPolicy, the pure lookup of quota rules per
plan tier (missing `backend/usage.py`): Free is capped-total with 5 units,
Standard is recurring with 30 units per calendar month. -/
def planPolicy : PlanType → PlanPolicyEntry
  | .free => ⟨5, .lifetime⟩
  | .standard => ⟨30, .monthly⟩

/-- A wall-clock instant, to the granularity the ledger needs: the
calendar year and month. -/
structure Date where
  year : Nat
  month : Nat
deriving DecidableEq, Repr

/-- Modelled from the spec: `currentPeriodKey` — `"lifetime"` for the
capped-total tier, a deterministic year-month key for the recurring tier. -/
def currentPeriodKey (planType : PlanType) (now : Date) : String :=
  match (planPolicy planType).periodKind with
  | .lifetime => "lifetime"
  | .monthly => toString now.year ++ "-" ++ toString now.month

/-- The durable usage store: consumed units per (userId, periodKey),
absent entries meaning zero (a record is created lazily on first
consumption). -/
def Ledger : Type := List ((String × String) × Nat)

/-- Consumed units recorded for a user and period (0 when no record). -/
def lookupUnits : Ledger → String → String → Nat
  | [], _, _ => 0
  | e :: es, userId, periodKey =>
    if e.1.1 = userId ∧ e.1.2 = periodKey then e.2
    else lookupUnits es userId periodKey

/-- Write the consumed-units record of a user and period. -/
def setUnits : Ledger → String → String → Nat → Ledger
  | [], userId, periodKey, n => [((userId, periodKey), n)]
  | e :: es, userId, periodKey, n =>
    if e.1.1 = userId ∧ e.1.2 = periodKey then ((userId, periodKey), n) :: es
    else e :: setUnits es userId periodKey n

/-- Result of a consumption attempt. -/
structure ConsumeResult where
  allowed : Bool
  remaining : Nat
deriving DecidableEq, Repr

/-- Modelled from the spec: `UsageLedger.tryConsume` (missing
`backend/usage.py`) — a single atomic conditional update that increments
`consumedUnits` only when it is strictly below the plan limit, and leaves
the ledger unchanged otherwise. Concurrency on the durable store is
modelled by this operation being atomic: any interleaving of calls is some
sequential order of these steps. -/
def tryConsume (ledger : Ledger) (userId : String) (planType : PlanType)
    (now : Date) : ConsumeResult × Ledger :=
  let key := currentPeriodKey planType now
  let limit := (planPolicy planType).limit
  let c := lookupUnits ledger userId key
  if c < limit then
    (⟨true, limit - (c + 1)⟩, setUnits ledger userId key (c + 1))
  else
    (⟨false, 0⟩, ledger)

/-- Modelled from the spec: `peek`, the read-only usage display. -/
def peek (ledger : Ledger) (userId : String) (planType : PlanType)
    (now : Date) : Nat :=
  lookupUnits ledger userId (currentPeriodKey planType now)

/-! ### Concrete fixtures used by witnesses and counterexamples -/

/-- A sample authenticated user profile. -/
def uAda : UserData := ⟨"u1", "ada@example.com", "Ada", none⟩

/-- Fresh client state: nothing stored, no user, both guards clear. -/
def initState : ClientState := ⟨none, none, none, false, []⟩

/-- State during an in-flight exchange of `abc123`: the lock is set and
the ref holds the credential, exactly as between the lock-set and the
`finally` of `processSessionId`. -/
def inFlightState : ClientState := ⟨none, none, some "abc123", true, ["abc123"]⟩

/-- State with a stored token and no user loaded yet. -/
def tokState : ClientState := ⟨some "tok", none, none, false, []⟩

/-- State with a stored token and an authenticated user. -/
def tokUserState : ClientState := ⟨some "tok", some uAda, none, false, []⟩

/-- A failing exchange outcome: the collaborator rejected the credential. -/
def oReject : RequestOutcome SessionResponse := .err (.httpStatus 401)

/-! ### Helper lemmas -/

/-- Writing a record and reading it back yields the written value. -/
theorem lookupUnits_setUnits (l : Ledger) (u k : String) (n : Nat) :
    lookupUnits (setUnits l u k n) u k = n := by
  induction l with
  | nil => simp [setUnits, lookupUnits]
  | cons e es ih =>
    by_cases h : e.1.1 = u ∧ e.1.2 = k
    · simp [setUnits, h, lookupUnits]
    · simp only [setUnits, if_neg h, lookupUnits]
      exact ih

/-- `checkSession` never issues an exchange call. -/
theorem checkSession_exchangeCalls (st : ClientState)
    (co : RequestOutcome UserData) :
    (checkSession st co).exchangeCalls = st.exchangeCalls := by
  cases hst : st.storedToken <;> cases co <;> simp [checkSession, hst]

/-! ### Claim C1 -/

/-- Claim C1, counterexample: two sequential exchange attempts for the same
credential `abc123`, the second arriving after the first has completed
(here with a failure), issue two exchange calls, not one: the `finally` of
`processSessionId` clears the last-processed memo together with the lock,
so a completed credential is not remembered and the repeat is not dropped. -/
theorem c1_sequential_repeat_not_deduped :
    (processSessionId (processSessionId initState "abc123" oReject)
        "abc123" oReject).exchangeCalls = ["abc123", "abc123"] := by decide

/-- Claim C1 as amended: the dedup holds only within the in-flight window
of the first attempt. While the guard flag is set or the in-flight memo
holds credential `c`, a second attempt for `c` is a no-op; and an attempt
that passes the guards issues exactly one exchange call. -/
theorem c1_exchange_once_per_inflight_window (st : ClientState) (c : String)
    (o : RequestOutcome SessionResponse) :
    (st.processingLock = true ∨ st.processingRef = some c →
        processSessionId st c o = st)
    ∧ (st.processingLock = false → st.processingRef ≠ some c →
        (processSessionId st c o).exchangeCalls = st.exchangeCalls ++ [c]) := by
  constructor
  · intro h
    rcases h with h | h
    · simp [processSessionId, h]
    · simp [processSessionId, h]
  · intro h1 h2
    simp only [processSessionId, h1, if_neg h2, if_false, Bool.false_eq_true]
    cases o <;> simp

/-- Witness for the amended C1 at concrete inputs: during the in-flight
window the repeat of `abc123` is dropped, and from the fresh state one
exchange call is issued. -/
theorem c1_exchange_once_witness :
    processSessionId inFlightState "abc123" oReject = inFlightState
    ∧ (processSessionId initState "abc123" oReject).exchangeCalls =
        initState.exchangeCalls ++ ["abc123"] :=
  ⟨(c1_exchange_once_per_inflight_window inFlightState "abc123" oReject).1
      (Or.inl rfl),
   (c1_exchange_once_per_inflight_window initState "abc123" oReject).2
      rfl (by decide)⟩

/-! ### Claim C2 -/

/-- Claim C2: while an exchange is in flight (the guard flag set), every
newly arriving trigger is dropped with the state unchanged — a live
deep-link event for any URL, a direct exchange attempt for any credential
(same or different), and the launch-URL path whenever it extracts a
credential — so no interleaved write to the token store occurs. -/
theorem c2_inflight_guard_drops_triggers (st : ClientState)
    (h : st.processingLock = true) :
    (∀ url o, handleDeepLink st url o = st)
    ∧ (∀ c o, processSessionId st c o = st)
    ∧ (∀ url o co, (extractSessionId url).isSome = true →
        initializeAuth st (some url) o co = st) := by
  refine ⟨?_, ?_, ?_⟩
  · intro url o
    unfold handleDeepLink
    cases hx : extractSessionId url with
    | none => rfl
    | some sid => simp [h]
  · intro c o
    simp [processSessionId, h]
  · intro url o co hx
    unfold initializeAuth
    cases hu : extractSessionId url with
    | none => rw [hu] at hx; exact absurd hx (by simp)
    | some sid => simp [hu, processSessionId, h]

/-- Witness for C2 at concrete inputs: with the guard set, a deep link for
a different credential `zzz` and one for the same credential `abc123` are
both dropped unchanged. -/
theorem c2_inflight_guard_witness :
    handleDeepLink inFlightState "app://open#session_id=zzz" oReject =
      inFlightState
    ∧ handleDeepLink inFlightState "app://open#session_id=abc123" oReject =
      inFlightState :=
  ⟨(c2_inflight_guard_drops_triggers inFlightState rfl).1
      "app://open#session_id=zzz" oReject,
   (c2_inflight_guard_drops_triggers inFlightState rfl).1
      "app://open#session_id=abc123" oReject⟩

/-! ### Claim C3 -/

/-- Claim C3: `tryConsume` never lets `consumedUnits` exceed the plan
limit — at `consumedUnits = limit` it returns disallowed and leaves the
ledger unchanged; one call, and the serialization of two concurrent calls
(each an atomic conditional update), preserve `consumedUnits ≤ limit`; and
from `consumedUnits = limit − 1` the two calls yield exactly one allowed
and one disallowed, ending at the limit. -/
theorem c3_quota_ceiling (ledger : Ledger) (u : String) (p : PlanType)
    (now : Date) (key : String) (lim : Nat)
    (hk : key = currentPeriodKey p now) (hl : lim = (planPolicy p).limit) :
    (lookupUnits ledger u key = lim →
        (tryConsume ledger u p now).1.allowed = false
        ∧ (tryConsume ledger u p now).2 = ledger)
    ∧ (lookupUnits ledger u key ≤ lim →
        lookupUnits (tryConsume ledger u p now).2 u key ≤ lim
        ∧ lookupUnits (tryConsume (tryConsume ledger u p now).2 u p now).2
            u key ≤ lim)
    ∧ (lookupUnits ledger u key + 1 = lim →
        (tryConsume ledger u p now).1.allowed = true
        ∧ (tryConsume (tryConsume ledger u p now).2 u p now).1.allowed = false
        ∧ lookupUnits (tryConsume (tryConsume ledger u p now).2 u p now).2
            u key = lim) := by
  subst hk hl
  refine ⟨?_, ?_, ?_⟩
  · intro h
    simp [tryConsume, h]
  · intro h
    by_cases hc : lookupUnits ledger u (currentPeriodKey p now) <
        (planPolicy p).limit
    · simp only [tryConsume, if_pos hc, lookupUnits_setUnits]
      constructor
      · omega
      · by_cases hc2 : lookupUnits ledger u (currentPeriodKey p now) + 1 <
            (planPolicy p).limit
        · simp only [lookupUnits_setUnits, if_pos hc2, lookupUnits_setUnits]
          omega
        · simp only [lookupUnits_setUnits, if_neg hc2]
          omega
    · simp only [tryConsume, if_neg hc]
      exact ⟨h, h⟩
  · intro h
    have hc : lookupUnits ledger u (currentPeriodKey p now) <
        (planPolicy p).limit := by omega
    simp only [tryConsume, if_pos hc, lookupUnits_setUnits]
    have hc2 : ¬ lookupUnits ledger u (currentPeriodKey p now) + 1 <
        (planPolicy p).limit := by omega
    simp only [if_neg hc2, lookupUnits_setUnits]
    exact ⟨trivial, trivial, by omega⟩

/-- Witness for C3 at concrete inputs: a Free-tier user at the lifetime
limit of 5 is refused with the ledger unchanged, and a Standard-tier user
at 29 of 30 in 2026-05 gets exactly one of two calls allowed, ending at
30. -/
theorem c3_quota_ceiling_witness :
    ((tryConsume [(("u1", "lifetime"), 5)] "u1" .free ⟨2026, 5⟩).1.allowed =
        false
      ∧ (tryConsume [(("u1", "lifetime"), 5)] "u1" .free ⟨2026, 5⟩).2 =
        [(("u1", "lifetime"), 5)])
    ∧ ((tryConsume [(("u1", "2026-5"), 29)] "u1" .standard
          ⟨2026, 5⟩).1.allowed = true
      ∧ (tryConsume (tryConsume [(("u1", "2026-5"), 29)] "u1" .standard
          ⟨2026, 5⟩).2 "u1" .standard ⟨2026, 5⟩).1.allowed = false
      ∧ lookupUnits (tryConsume (tryConsume [(("u1", "2026-5"), 29)] "u1"
          .standard ⟨2026, 5⟩).2 "u1" .standard ⟨2026, 5⟩).2
          "u1" "2026-5" = 30) :=
  ⟨(c3_quota_ceiling [(("u1", "lifetime"), 5)] "u1" .free ⟨2026, 5⟩
      "lifetime" 5 rfl rfl).1 (by decide),
   (c3_quota_ceiling [(("u1", "2026-5"), 29)] "u1" .standard ⟨2026, 5⟩
      "2026-5" 30 (by decide) rfl).2.2 (by decide)⟩

/-! ### Claim C5 -/

/-- Claim C5: an invocation of `processSessionId` that actually starts an
exchange (the guards pass) ends with the guard flag cleared and the memo
reset on every exit path — the awaited outcome may be a success, a failure
response, or a thrown error (axios rejects on both of the latter, and the
`finally` runs regardless). -/
theorem c5_guard_cleared_on_exit (st : ClientState) (c : String)
    (o : RequestOutcome SessionResponse)
    (h1 : st.processingLock = false) (h2 : st.processingRef ≠ some c) :
    (processSessionId st c o).processingLock = false
    ∧ (processSessionId st c o).processingRef = none := by
  simp only [processSessionId, h1, if_neg h2, if_false, Bool.false_eq_true]
  cases o <;> simp

/-- Witness for C5 at concrete inputs: after a rejected exchange and after
a successful one, the guard flag is down and the memo empty. -/
theorem c5_guard_cleared_witness :
    ((processSessionId initState "abc123" oReject).processingLock = false
      ∧ (processSessionId initState "abc123" oReject).processingRef = none)
    ∧ ((processSessionId initState "abc123"
          (.ok ⟨some "tok", uAda⟩)).processingLock = false
      ∧ (processSessionId initState "abc123"
          (.ok ⟨some "tok", uAda⟩)).processingRef = none) :=
  ⟨c5_guard_cleared_on_exit initState "abc123" oReject rfl (by decide),
   c5_guard_cleared_on_exit initState "abc123" (.ok ⟨some "tok", uAda⟩)
      rfl (by decide)⟩

/-! ### Claim C6 -/

/-- Claim C6: a failed exchange (any axios rejection — a collaborator
error response or a thrown/network error) ends with the stored token
removed, the user identity null, the guards released, and exactly one
exchange call issued — no automatic retry. -/
theorem c6_failure_clears_state (st : ClientState) (c : String)
    (e : AxiosError)
    (h1 : st.processingLock = false) (h2 : st.processingRef ≠ some c) :
    processSessionId st c (.err e) =
      { storedToken := none, user := none, processingRef := none,
        processingLock := false,
        exchangeCalls := st.exchangeCalls ++ [c] } := by
  simp [processSessionId, h1, if_neg h2]

/-- Witness for C6 at a concrete input: the rejected exchange of `abc123`
from the token-holding state clears everything and records one call. -/
theorem c6_failure_clears_witness :
    processSessionId tokUserState "abc123" oReject =
      { storedToken := none, user := none, processingRef := none,
        processingLock := false,
        exchangeCalls := tokUserState.exchangeCalls ++ ["abc123"] } :=
  c6_failure_clears_state tokUserState "abc123" (.httpStatus 401) rfl
    (by decide)

/-! ### Claim C4 -/

/-- Claim C4, counterexample: launch URL `app://open` yields no credential
and indeed no exchange is attempted, yet the state is not left unchanged —
`initializeAuth` falls back to `checkSession`, whose catch clears the
stored token (and user identity) when the `GET /api/auth/me` validation
fails, here on a network error. -/
theorem c4_no_match_mutates_on_startup :
    extractSessionId "app://open" = none
    ∧ tokState.storedToken = some "tok"
    ∧ (initializeAuth tokState (some "app://open") oReject
        (.err .network)).storedToken = none := by
  refine ⟨by decide, rfl, by decide⟩

/-- Claim C4 as amended: extraction matches the fragment regex first and
consults the query parameters only when the fragment yields nothing (with
an empty query value treated as no match); when neither matches, no
exchange call is attempted — a live deep-link event leaves the state
unchanged, while the startup path falls back to the session check, which
issues no exchange but may update the user identity and clear an invalid
stored token. -/
theorem c4_extraction_priority (url : String) (st : ClientState)
    (o : RequestOutcome SessionResponse) (co : RequestOutcome UserData) :
    (∀ v, scanHash url.toList = some v → extractSessionId url = some v)
    ∧ (scanHash url.toList = none →
        extractSessionId url =
          match queryLookup url with
          | some v => if v = "" then none else some v
          | none => none)
    ∧ (extractSessionId url = none →
        handleDeepLink st url o = st
        ∧ (initializeAuth st (some url) o co).exchangeCalls =
            st.exchangeCalls) := by
  refine ⟨?_, ?_, ?_⟩
  · intro v hv
    have hv' : scanHash url.data = some v := hv
    simp [extractSessionId, hv']
  · intro hn
    have hn' : scanHash url.data = none := hn
    simp [extractSessionId, hn']
  · intro hn
    constructor
    · simp [handleDeepLink, hn]
    · simp only [initializeAuth, hn]
      exact checkSession_exchangeCalls st co

/-- Witness for the amended C4 at concrete inputs: a URL carrying
`session_id` in both fragment and query extracts the fragment value, and
the no-credential URL `app://open` is dropped unchanged by a deep-link
event. -/
theorem c4_extraction_priority_witness :
    extractSessionId "app://open?session_id=qqq#session_id=frag" =
      some "frag"
    ∧ handleDeepLink tokUserState "app://open" oReject = tokUserState :=
  ⟨(c4_extraction_priority "app://open?session_id=qqq#session_id=frag"
      initState oReject (.err .network)).1 "frag" (by decide),
   ((c4_extraction_priority "app://open" tokUserState oReject
      (.err .network)).2.2 (by decide)).1⟩

/-! ### Claim C7 -/

/-- Claim C7, counterexample: a network failure on the session check is
treated exactly like an auth failure — from a state holding a token and an
authenticated user, `checkSession` with a network error clears the stored
token and sets the user identity to null, because its catch does not
distinguish a network failure from a rejection. -/
theorem c7_network_clears_auth_state :
    tokUserState.storedToken = some "tok"
    ∧ tokUserState.user = some uAda
    ∧ (checkSession tokUserState (.err .network)).storedToken = none
    ∧ (checkSession tokUserState (.err .network)).user = none := by
  refine ⟨rfl, rfl, by decide, by decide⟩

/-- Claim C7 as amended: the response interceptor surfaces a connectivity
alert on a network failure and itself leaves the client state untouched,
but the request sites with catch-all handlers do treat the failure like an
auth failure — `checkSession` clears the stored token and the user
identity on any rejection, network failure included. -/
theorem c7_network_alert_but_cleared (st : ClientState) :
    responseInterceptor st .network = (st, [.alertNetwork])
    ∧ (st.storedToken.isSome = true →
        (checkSession st (.err .network)).storedToken = none
        ∧ (checkSession st (.err .network)).user = none) := by
  constructor
  · rfl
  · intro h
    cases hst : st.storedToken with
    | none => rw [hst] at h; exact absurd h (by simp)
    | some t => simp [checkSession, hst]

/-- Witness for the amended C7 at a concrete input: the interceptor passes
the token-holding state through with only the connectivity alert, and the
session check on that state clears token and identity. -/
theorem c7_network_alert_witness :
    responseInterceptor tokUserState .network =
      (tokUserState, [.alertNetwork])
    ∧ ((checkSession tokUserState (.err .network)).storedToken = none
      ∧ (checkSession tokUserState (.err .network)).user = none) :=
  ⟨(c7_network_alert_but_cleared tokUserState).1,
   (c7_network_alert_but_cleared tokUserState).2 rfl⟩

/-! ### Claim C8 -/

/-- Claim C8: the request interceptor attaches `Authorization: Bearer
<token>` exactly when a token is stored; with no stored token a request
whose config carries no Authorization header (no call site in the
repository sets one) goes out without one. -/
theorem c8_request_authorization (tok : Option String)
    (config : RequestConfig) (h : config.authorization = none) :
    (∀ t, tok = some t →
        (requestInterceptor tok config).authorization =
          some ("Bearer " ++ t))
    ∧ (tok = none → (requestInterceptor tok config).authorization = none) := by
  constructor
  · intro t ht
    subst ht
    simp [requestInterceptor]
  · intro ht
    subst ht
    simp [requestInterceptor, h]

/-- Witness for C8 at concrete inputs: with stored token `tok` the header
becomes `Bearer tok`; with no stored token the bare config stays bare. -/
theorem c8_request_authorization_witness :
    (requestInterceptor (some "tok") ⟨none⟩).authorization =
      some ("Bearer " ++ "tok")
    ∧ (requestInterceptor none ⟨none⟩).authorization = none :=
  ⟨(c8_request_authorization (some "tok") ⟨none⟩ rfl).1 "tok" rfl,
   (c8_request_authorization none ⟨none⟩ rfl).2 rfl⟩

/-! ### Claim C9 -/

/-- Claim C9: on an HTTP 401 response the interceptor only logs the
session-invalid condition — the client state (stored token, user identity,
guards) is returned unchanged, and no logout or re-login is triggered: the
documented design gap. -/
theorem c9_unauthorized_logs_only (st : ClientState) :
    responseInterceptor st (.httpStatus 401) = (st, [.logUnauthorized]) := by
  simp [responseInterceptor]

/-! ### Claim C10 -/

/-- Claim C10: on a successful exchange whose response carries no
`session_token` field, the user identity is still set from the response
fields while the stored token is left as it was — so from a state with no
stored token the client ends authenticated in memory with the token store
empty: identity and token store are not kept paired. -/
theorem c10_identity_without_token (st : ClientState) (c : String)
    (resp : SessionResponse) (h1 : st.processingLock = false)
    (h2 : st.processingRef ≠ some c) (h3 : resp.session_token = none) :
    (processSessionId st c (.ok resp)).user = some resp.user
    ∧ (processSessionId st c (.ok resp)).storedToken = st.storedToken := by
  simp [processSessionId, h1, if_neg h2, h3]

/-- Witness for C10 at a concrete input: exchanging `abc123` from the
fresh state against a token-less success response leaves the stored token
absent while the user identity is populated. -/
theorem c10_identity_without_token_witness :
    (processSessionId initState "abc123" (.ok ⟨none, uAda⟩)).user = some uAda
    ∧ (processSessionId initState "abc123"
        (.ok ⟨none, uAda⟩)).storedToken = initState.storedToken
    ∧ initState.storedToken = none :=
  ⟨(c10_identity_without_token initState "abc123" ⟨none, uAda⟩ rfl
      (by decide) rfl).1,
   (c10_identity_without_token initState "abc123" ⟨none, uAda⟩ rfl
      (by decide) rfl).2,
   rfl⟩

end MirrorNote
